import Mathlib

/-!
# Rako home-automation integration: a shallow embedding

This file embeds the Rako bridge integration (`custom_components/rako/`:
`__init__.py`, `light.py`, `scene.py`, `bridge.py`, `model.py`) in Lean.

Conventions of the embedding:

* Asynchronous bridge round trips are modelled by an explicit `CmdOutcome`
  parameter: the resolution of the awaited call (success, bridge error, or
  timeout of the 3-second `asyncio.wait_for`).
* Side effects (`async_write_ha_state`, `_LOGGER.error` / `warning` / `debug`,
  and the bridge command itself) are recorded as an explicit event trace
  (`List Ev`) in emission order, so temporal claims ("publish happens before
  the command resolves", "logged only on the availability transition") become
  statements about trace positions and membership.
* Python exceptions that propagate to a caller are modelled with `Except`;
  a handler that catches and returns normally is modelled by a total function.
* The discovery async-generator is modelled by `AttemptResult`: the prefix of
  descriptors yielded before the generator either completes (`.ok`) or raises
  (`.ex e`).
-/

namespace Rako

/-! ## External descriptors and caches (python_rako data model) -/

/-- A channel-light descriptor yielded by discovery
(external `python_rako.ChannelLight`). -/
structure ChannelLight where
  room_id : Nat
  channel_id : Nat
  room_title : String
  channel_name : String
  deriving DecidableEq, Repr

/-- A room-light descriptor yielded by discovery
(external `python_rako.RoomLight`). -/
structure RoomLight where
  room_id : Nat
  room_title : String
  deriving DecidableEq, Repr

/-- External `python_rako.RoomLight.channel_id`: a room light addresses the
whole-room channel `0` of its room (scene `0` = off is likewise reserved). -/
def RoomLight.channel_id (_ : RoomLight) : Nat := 0

/-- External `python_rako.ChannelLight.room_channel`: the `(room_id, channel_id)`
pair used as the level-cache key. -/
def ChannelLight.room_channel (l : ChannelLight) : Nat × Nat :=
  (l.room_id, l.channel_id)

/-- One descriptor yielded by `bridge.discover_lights`; the setup code
classifies by concrete kind and skips unrecognized kinds. -/
inductive DiscoveredLight
  | channelLight (l : ChannelLight)
  | roomLight (l : RoomLight)
  | unknown
  deriving DecidableEq, Repr

/-- Scene cache: last-known active scene number per room
(external `python_rako` cache; contract per the spec). -/
abbrev SceneCache := List (Nat × Nat)

/-- `scene_cache.get(room_id, default)`: dictionary lookup with default. -/
def SceneCache.get (c : SceneCache) (room_id dflt : Nat) : Nat :=
  match c.lookup room_id with
  | some v => v
  | none => dflt

/-- One entry of the level cache: brightness of a `(room, channel)` pair under a
given scene. -/
structure LevelCacheEntry where
  room_channel : Nat × Nat
  scene : Nat
  level : Nat
  deriving DecidableEq, Repr

/-- Level cache: last-known per-channel brightness indexed by
(room-channel, scene). External `python_rako` cache; contract per the spec. -/
abbrev LevelCache := List LevelCacheEntry

/-- `level_cache.get_channel_level(room_channel, scene)`: lookup defaulting to 0
when absent (external contract per the spec: "looks up level cache by
(channel, active scene for its room), defaulting to 0 if absent"). -/
def LevelCache.get_channel_level (c : LevelCache) (rc : Nat × Nat) (scene : Nat) : Nat :=
  match c.find? (fun e => e.room_channel == rc && e.scene == scene) with
  | some e => e.level
  | none => 0

/-- External `python_rako.helpers.convert_to_brightness`, per the spec's
contract: a fixed scene→brightness conversion; scene 0 is off, scenes 1–4 are
the 100%/75%/50%/25% presets. -/
def convert_to_brightness : Nat → Nat
  | 1 => 255
  | 2 => 192
  | 3 => 128
  | 4 => 64
  | _ => 0

/-- External `python_rako.helpers.convert_to_scene`, per the spec's contract:
converts brightness to the nearest scene number; brightness 0 maps to scene 0
(off), never to a scene 1–4. -/
def convert_to_scene (brightness : Nat) : Nat :=
  if brightness ≥ 255 then 1
  else if brightness ≥ 192 then 2
  else if brightness ≥ 128 then 3
  else if brightness > 0 then 4
  else 0

/-! ## The bridge handle (`bridge.py`) -/

/-- `RakoBridge` (`bridge.py`), after `async_setup_entry` has assigned
`bridge.level_cache` and `bridge.scene_cache` from `get_cache_state()`.
Host-platform handles (`hass`, `entry_id`) and network fields irrelevant to the
claims are omitted. -/
structure RakoBridge where
  mac : String
  level_cache : LevelCache
  scene_cache : SceneCache
  deriving DecidableEq, Repr

/-! ## Unique ids (`util.py`) -/

/-- Modelled from the spec: `create_unique_id` is imported from `util.py`,
which is not among the provided sources. Per the spec, every entity's unique
identifier "is derived deterministically from (bridge MAC, room id,
channel-or-scene id)"; we model it as the underscore-joined rendering of that
triple. -/
def create_unique_id (mac : String) (room_id obj_id : Nat) : String :=
  mac ++ "_" ++ toString room_id ++ "_" ++ toString obj_id

/-! ## Observable events -/

/-- A command sent to the bridge. -/
inductive BridgeCmd
  | set_channel_brightness (room_id channel_id brightness : Nat)
  | set_room_scene (room_id scene : Nat)
  deriving DecidableEq, Repr

/-- Resolution of one awaited bridge round trip
(`asyncio.wait_for(..., timeout=3.0)`). -/
inductive CmdOutcome
  | success
  | bridgeError
  | timeout
  deriving DecidableEq, Repr

/-- An observable side effect, recorded in emission order. `publish` snapshots
the entity state pushed by `async_write_ha_state`; `cmd` is a bridge round trip
together with its resolution. -/
inductive Ev
  | publish (brightness : Nat) (available : Bool)
  | log_error (msg : String)
  | log_warning (msg : String)
  | log_debug
  | cmd (c : BridgeCmd) (o : CmdOutcome)
  deriving DecidableEq, Repr

/-- Whether an event is an error-level log record. -/
def Ev.is_log_error : Ev → Bool
  | .log_error _ => true
  | _ => false

/-- Whether an event is a state publish (`async_write_ha_state`). -/
def Ev.is_publish : Ev → Bool
  | .publish _ _ => true
  | _ => false

/-- Whether an event is a bridge command round trip. -/
def Ev.is_cmd : Ev → Bool
  | .cmd _ _ => true
  | _ => false

/-- The transition log message of the light adapters (`light.py`). -/
def light_transition_msg : String := "An error occurred while updating the Rako Light"

/-- The unconditional per-failure log message of `RakoChannelLight.async_turn_on`. -/
def channel_failure_msg : String := "Error updating the Rako Light"

/-- The transition log message of `RakoScene.async_activate` (`scene.py`). -/
def scene_transition_msg : String := "An error occurred while activating the Rako Scene"

/-- The unconditional per-failure log message of `RakoScene.async_activate`. -/
def scene_failure_msg : String := "Error activating scene"

/-! ## Light adapters (`light.py`) -/

/-- `RakoChannelLight`: bridge handle, wrapped descriptor, and the mutable
entity fields `_brightness` and `_available`. -/
structure RakoChannelLight where
  bridge : RakoBridge
  light : ChannelLight
  brightness : Nat
  available : Bool
  deriving DecidableEq, Repr

/-- `RakoRoomLight`: bridge handle, wrapped descriptor, and the mutable entity
fields `_brightness` and `_available`. -/
structure RakoRoomLight where
  bridge : RakoBridge
  light : RoomLight
  brightness : Nat
  available : Bool
  deriving DecidableEq, Repr

/-- `RakoChannelLight._init_get_brightness_from_cache`: level-cache lookup at
(the light's room-channel, the scene cache's active scene for its room,
defaulting to scene 0). -/
def RakoChannelLight.init_get_brightness_from_cache
    (bridge : RakoBridge) (l : ChannelLight) : Nat :=
  let scene_of_room := bridge.scene_cache.get l.room_id 0
  bridge.level_cache.get_channel_level l.room_channel scene_of_room

/-- `RakoRoomLight._init_get_brightness_from_cache`: scene→brightness
conversion of the room's cached active scene (defaulting to scene 0). -/
def RakoRoomLight.init_get_brightness_from_cache
    (bridge : RakoBridge) (l : RoomLight) : Nat :=
  convert_to_brightness (bridge.scene_cache.get l.room_id 0)

/-- `RakoChannelLight.__init__` via `RakoLight.__init__`: brightness from the
caches, available by default. -/
def RakoChannelLight.mk_entity (bridge : RakoBridge) (l : ChannelLight) : RakoChannelLight :=
  { bridge := bridge, light := l,
    brightness := RakoChannelLight.init_get_brightness_from_cache bridge l,
    available := true }

/-- `RakoRoomLight.__init__` via `RakoLight.__init__`: brightness from the
caches, available by default. -/
def RakoRoomLight.mk_entity (bridge : RakoBridge) (l : RoomLight) : RakoRoomLight :=
  { bridge := bridge, light := l,
    brightness := RakoRoomLight.init_get_brightness_from_cache bridge l,
    available := true }

/-- `RakoLight.unique_id` for a channel light:
`create_unique_id(bridge.mac, room_id, channel_id)`. -/
def RakoChannelLight.unique_id (self : RakoChannelLight) : String :=
  create_unique_id self.bridge.mac self.light.room_id self.light.channel_id

/-- `RakoLight.unique_id` for a room light: same formula, with the room light's
whole-room channel id 0. -/
def RakoRoomLight.unique_id (self : RakoRoomLight) : String :=
  create_unique_id self.bridge.mac self.light.room_id self.light.channel_id

/-- `RakoChannelLight.async_turn_on(brightness = 255 if unspecified)`.
Mirrors the method body: debug log; optimistic `_brightness` write and state
publish; awaited `set_channel_brightness` under the 3-second timeout; on
success a debug log and `_available = True`; on `RakoBridgeError` / timeout an
unconditional error log, the transition error log only if still available,
`_available = False`, a second state publish, and a normal return (the
exception is caught, so the function is total). -/
def RakoChannelLight.async_turn_on (self : RakoChannelLight)
    (brightness_arg : Option Nat) (outcome : CmdOutcome) :
    RakoChannelLight × List Ev :=
  let brightness := brightness_arg.getD 255
  let self1 := { self with brightness := brightness }
  let pre : List Ev := [.log_debug, .publish brightness self1.available]
  let the_cmd : BridgeCmd :=
    .set_channel_brightness self1.light.room_id self1.light.channel_id brightness
  match outcome with
  | .success =>
      ({ self1 with available := true },
        pre ++ [.cmd the_cmd .success, .log_debug])
  | o =>
      let logs : List Ev :=
        [.log_error channel_failure_msg] ++
          (if self1.available then [.log_error light_transition_msg] else [])
      let self2 := { self1 with available := false }
      (self2, pre ++ [.cmd the_cmd o] ++ logs ++ [.publish brightness false])

/-- `RakoRoomLight.async_turn_on(brightness = 255 if unspecified)`.
Mirrors the method body: optimistic `_brightness` write and state publish;
`convert_to_scene`; awaited `set_room_scene` under the 3-second timeout; on
success `_available = True`; on `RakoBridgeError` / timeout the transition
error log only if still available, `_available = False`, a second state
publish, and a normal return. -/
def RakoRoomLight.async_turn_on (self : RakoRoomLight)
    (brightness_arg : Option Nat) (outcome : CmdOutcome) :
    RakoRoomLight × List Ev :=
  let brightness := brightness_arg.getD 255
  let self1 := { self with brightness := brightness }
  let pre : List Ev := [.publish brightness self1.available]
  let the_cmd : BridgeCmd :=
    .set_room_scene self1.light.room_id (convert_to_scene brightness)
  match outcome with
  | .success =>
      ({ self1 with available := true }, pre ++ [.cmd the_cmd .success])
  | o =>
      let logs : List Ev :=
        if self1.available then [.log_error light_transition_msg] else []
      let self2 := { self1 with available := false }
      (self2, pre ++ [.cmd the_cmd o] ++ logs ++ [.publish brightness false])

/-- `RakoLight.async_turn_off`: delegates to `async_turn_on(brightness=0)`. -/
def RakoChannelLight.async_turn_off (self : RakoChannelLight) (outcome : CmdOutcome) :
    RakoChannelLight × List Ev :=
  self.async_turn_on (some 0) outcome

/-! ## Scene adapter (`scene.py`) -/

/-- Static metadata of one entry of the `RAKO_SCENES` table. -/
structure SceneInfo where
  name : String
  description : String
  deriving DecidableEq, Repr

/-- The fixed scene metadata table `RAKO_SCENES` (`scene.py`): scene numbers
1–4 with their display names and brightness descriptions; scene 0 (off) is not
listed. -/
def RAKO_SCENES : List (Nat × SceneInfo) :=
  [(1, { name := "Scene 1", description := "100% brightness" }),
   (2, { name := "Scene 2", description := "75% brightness" }),
   (3, { name := "Scene 3", description := "50% brightness" }),
   (4, { name := "Scene 4", description := "25% brightness" })]

/-- `RakoScene`: bridge handle, room id, room title, fixed scene number, static
scene metadata, and the mutable `_available` flag (set `True` by `__init__`). -/
structure RakoScene where
  bridge : RakoBridge
  room_id : Nat
  room_title : String
  scene_number : Nat
  scene_info : SceneInfo
  available : Bool
  deriving DecidableEq, Repr

/-- `RakoScene.unique_id`: `create_unique_id(bridge.mac, room_id, scene_number)`. -/
def RakoScene.unique_id (self : RakoScene) : String :=
  create_unique_id self.bridge.mac self.room_id self.scene_number

/-- `RakoScene.async_activate`. Mirrors the method body: debug log; awaited
`set_room_scene(room_id, scene_number)` under the 3-second timeout; on success
a debug log and `_available = True`; on `RakoBridgeError` / timeout an
unconditional error log, the transition error log only if still available,
`_available = False`, and a normal return — no state publish anywhere in the
method. -/
def RakoScene.async_activate (self : RakoScene) (outcome : CmdOutcome) :
    RakoScene × List Ev :=
  let pre : List Ev := [.log_debug]
  let the_cmd : BridgeCmd := .set_room_scene self.room_id self.scene_number
  match outcome with
  | .success =>
      ({ self with available := true }, pre ++ [.cmd the_cmd .success, .log_debug])
  | o =>
      let logs : List Ev :=
        [.log_error scene_failure_msg] ++
          (if self.available then [.log_error scene_transition_msg] else [])
      ({ self with available := false }, pre ++ [.cmd the_cmd o] ++ logs)

/-! ## Discovery and the setup entry points (`light.py`, `scene.py`) -/

/-- One consumption of the `discover_lights` async generator: the prefix of
descriptors it yielded, then how it ended. -/
inductive AttemptOutcome
  | ok
  | ex (e : String)
  deriving DecidableEq, Repr

/-- Result of one discovery attempt: `yielded` descriptors were produced (and
consumed by the `async for` body) before the generator completed or raised. -/
structure AttemptResult where
  yielded : List DiscoveredLight
  outcome : AttemptOutcome
  deriving DecidableEq, Repr

/-- A registered light entity: the loop body wraps a `ChannelLight` descriptor
as a `RakoChannelLight` and a `RoomLight` descriptor as a `RakoRoomLight`. -/
inductive RakoLightEntity
  | channel (c : RakoChannelLight)
  | room (r : RakoRoomLight)
  deriving DecidableEq, Repr

/-- `unique_id` of a registered light entity. -/
def RakoLightEntity.unique_id : RakoLightEntity → String
  | .channel c => c.unique_id
  | .room r => r.unique_id

/-- The classification in the `async for` body of `light.async_setup_entry`:
channel and room descriptors become adapters, any other kind is skipped
(`continue`). -/
def light_entity_from (bridge : RakoBridge) : DiscoveredLight → Option RakoLightEntity
  | .channelLight l => some (.channel (RakoChannelLight.mk_entity bridge l))
  | .roomLight l => some (.room (RakoRoomLight.mk_entity bridge l))
  | .unknown => none

/-- The adapters appended to `hass_lights` by one pass of the `async for` loop
over a list of yielded descriptors. -/
def lights_from (bridge : RakoBridge) (ls : List DiscoveredLight) : List RakoLightEntity :=
  ls.filterMap (light_entity_from bridge)

/-- `max_retries` in `light.async_setup_entry`. -/
def max_retries : Nat := 3

/-- The retry loop of `light.async_setup_entry`. `attempt` is the loop index,
`remaining` the number of loop iterations still to run, and `acc` the
`hass_lights` list, which the source initializes ONCE before the loop: items
appended by a pass that later raises stay in `acc`. On `break` (a completed
pass) the accumulated list is returned; when the last iteration raises the
exception propagates; if the range is exhausted without running (only possible
with a zero budget) the accumulated list is registered as is. -/
def light_retry_loop (bridge : RakoBridge) (attempts : Nat → AttemptResult) :
    Nat → Nat → List RakoLightEntity → Except String (List RakoLightEntity)
  | _, 0, acc => .ok acc
  | attempt, remaining + 1, acc =>
      let r := attempts attempt
      let acc1 := acc ++ lights_from bridge r.yielded
      match r.outcome with
      | .ok => .ok acc1
      | .ex e =>
          if remaining = 0 then .error e
          else light_retry_loop bridge attempts (attempt + 1) remaining acc1

/-- `light.async_setup_entry`, after the bridge lookup and cache fetch: runs
the 3-attempt retry loop on discovery and returns the `hass_lights` list that
`async_add_entities` registers, or propagates the last discovery error. -/
def light_async_setup_entry (bridge : RakoBridge) (attempts : Nat → AttemptResult) :
    Except String (List RakoLightEntity) :=
  light_retry_loop bridge attempts 0 max_retries []

/-- The body of the `async for` loop of `scene.async_setup_entry` for one
descriptor: a room-light descriptor contributes one `RakoScene` per
`RAKO_SCENES` entry (numbers 1–4, in table order); a channel-light or
unrecognized descriptor contributes nothing. -/
def scenes_from_light (bridge : RakoBridge) : DiscoveredLight → List RakoScene
  | .roomLight l =>
      RAKO_SCENES.map (fun p =>
        { bridge := bridge, room_id := l.room_id, room_title := l.room_title,
          scene_number := p.1, scene_info := p.2, available := true })
  | .channelLight _ => []
  | .unknown => []

/-- `scene.async_setup_entry`, after the bridge lookup: consumes the discovery
sequence once, with NO retry; scenes built from the yielded prefix are
discarded when the generator raises, because the exception propagates before
`async_add_entities` runs. -/
def scene_async_setup_entry (bridge : RakoBridge) (discovery : AttemptResult) :
    Except String (List RakoScene) :=
  let hass_scenes := discovery.yielded.flatMap (scenes_from_light bridge)
  match discovery.outcome with
  | .ok => .ok hass_scenes
  | .ex e => .error e

/-! ## The per-domain registry (`__init__.py`) -/

/-- The config entry fields the integration reads: `entry.data[CONF_MAC]` and
`entry.unique_id` (other `entry.data` fields and `entry_id` do not affect the
claims about the registry). -/
structure ConfigEntry where
  mac : String
  unique_id : String
  deriving DecidableEq, Repr

/-- `hass.data[DOMAIN]`: the per-domain registry, a dictionary from key to the
entry data holding the bridge client. A `none` result of a lookup is the
dictionary's missing-key (`KeyError`) branch. -/
abbrev DomainRegistry := String → Option RakoBridge

/-- The empty per-domain registry (`hass.data.setdefault(DOMAIN, {})` on first
setup). -/
def empty_registry : DomainRegistry := fun _ => none

/-- The `RakoBridge` that `__init__.async_setup_entry` constructs: its `mac` is
`entry.data[CONF_MAC]`; caches start empty until the light platform assigns
them. -/
def rako_bridge_of (entry : ConfigEntry) : RakoBridge :=
  { mac := entry.mac, level_cache := [], scene_cache := [] }

/-- `__init__.async_setup_entry`'s registry write:
`hass.data[DOMAIN][rako_bridge.mac] = {"rako_bridge_client": rako_bridge}`. -/
def integration_setup_store (d : DomainRegistry) (entry : ConfigEntry) : DomainRegistry :=
  fun key => if key = (rako_bridge_of entry).mac then some (rako_bridge_of entry) else d key

/-- The bridge lookup shared by `light.async_setup_entry` and
`scene.async_setup_entry`: `hass.data[DOMAIN][entry.unique_id]`. -/
def platform_setup_lookup (d : DomainRegistry) (entry : ConfigEntry) : Option RakoBridge :=
  d entry.unique_id

/-- `__init__.async_unload_entry`'s registry delete:
`del hass.data[DOMAIN][entry.unique_id]`. -/
def integration_unload_delete (d : DomainRegistry) (entry : ConfigEntry) : DomainRegistry :=
  fun key => if key = entry.unique_id then none else d key

/-! ## Sample entities for concrete instantiations -/

/-- A bridge with the cache snapshot of the spec's worked example:
level `(room 5, channel 2, scene 1) = 180`, scene cache `{5: 1}`. -/
def sample_bridge : RakoBridge :=
  { mac := "00:11:22:33:44:55",
    level_cache := [{ room_channel := (5, 2), scene := 1, level := 180 }],
    scene_cache := [(5, 1)] }

/-- A bridge whose caches are empty. -/
def empty_bridge : RakoBridge :=
  { mac := "00:11:22:33:44:55", level_cache := [], scene_cache := [] }

/-- A discovered channel-light descriptor: room 5, channel 2. -/
def sample_channel_desc : ChannelLight :=
  { room_id := 5, channel_id := 2, room_title := "Lounge", channel_name := "Spots" }

/-- A discovered room-light descriptor: room 7. -/
def sample_room_desc : RoomLight := { room_id := 7, room_title := "Study" }

/-- The channel-light adapter built from the sample descriptor. -/
def sample_channel : RakoChannelLight :=
  RakoChannelLight.mk_entity sample_bridge sample_channel_desc

/-- The room-light adapter built from the sample descriptor. -/
def sample_room : RakoRoomLight :=
  RakoRoomLight.mk_entity sample_bridge sample_room_desc

/-- A scene adapter as `scene.async_setup_entry` constructs it: room 5,
scene 2. -/
def sample_scene : RakoScene :=
  { bridge := sample_bridge, room_id := 5, room_title := "Lounge",
    scene_number := 2, scene_info := { name := "Scene 2", description := "75% brightness" },
    available := true }

/-! ## Helper lemmas -/

/-- Appending distinct suffixes to a common string keeps the results distinct. -/
lemma string_append_ne (p : String) {a b : String} (h : a ≠ b) : p ++ a ≠ p ++ b := by
  intro he
  apply h
  have hd : (p ++ a).data = (p ++ b).data := congrArg String.data he
  simp only [String.data_append] at hd
  have hab := List.append_cancel_left hd
  cases a; cases b; exact congrArg String.mk hab

/-- `create_unique_id` is injective in the id component (given distinct
renderings), since the id is the final underscore-separated field. -/
lemma create_unique_id_ne_of_repr_ne (mac : String) (room_id : Nat) {i j : Nat}
    (h : toString i ≠ toString j) :
    create_unique_id mac room_id i ≠ create_unique_id mac room_id j :=
  string_append_ne (mac ++ "_" ++ toString room_id ++ "_") h

/-- The two distinct error-log messages of `RakoChannelLight.async_turn_on`. -/
lemma light_msgs_ne : light_transition_msg ≠ channel_failure_msg := by decide

/-- The two distinct error-log messages of `RakoScene.async_activate`. -/
lemma scene_msgs_ne : scene_transition_msg ≠ scene_failure_msg := by decide

/-! ## Claim theorems -/

/-- C3: for every light adapter (channel or room) and every brightness `b`,
when the bridge command of `turn_on(b)` fails with a bridge error or times out,
afterwards the availability flag is false, the local brightness still equals
`b` (the optimistic value is not reverted), and the final emitted event is a
state republish carrying brightness `b` and availability false; the function
returns normally (it is total) rather than raising. -/
theorem turn_on_failure_marks_unavailable_keeps_brightness
    (c : RakoChannelLight) (r : RakoRoomLight) (b : Nat) (o : CmdOutcome)
    (h : o ≠ CmdOutcome.success) :
    ((c.async_turn_on (some b) o).1.available = false ∧
      (c.async_turn_on (some b) o).1.brightness = b ∧
      (c.async_turn_on (some b) o).2.getLast? = some (Ev.publish b false)) ∧
    ((r.async_turn_on (some b) o).1.available = false ∧
      (r.async_turn_on (some b) o).1.brightness = b ∧
      (r.async_turn_on (some b) o).2.getLast? = some (Ev.publish b false)) := by
  cases o with
  | success => exact absurd rfl h
  | bridgeError =>
      cases hc : c.available <;> cases hr : r.available <;>
        simp [RakoChannelLight.async_turn_on, RakoRoomLight.async_turn_on, hc, hr]
  | timeout =>
      cases hc : c.available <;> cases hr : r.available <;>
        simp [RakoChannelLight.async_turn_on, RakoRoomLight.async_turn_on, hc, hr]

/-- Witness for C3: the sample channel and room lights, brightness 7, a
timed-out command. -/
theorem turn_on_failure_marks_unavailable_keeps_brightness_witness :
    ((sample_channel.async_turn_on (some 7) CmdOutcome.timeout).1.available = false ∧
      (sample_channel.async_turn_on (some 7) CmdOutcome.timeout).1.brightness = 7 ∧
      (sample_channel.async_turn_on (some 7) CmdOutcome.timeout).2.getLast?
        = some (Ev.publish 7 false)) ∧
    ((sample_room.async_turn_on (some 7) CmdOutcome.timeout).1.available = false ∧
      (sample_room.async_turn_on (some 7) CmdOutcome.timeout).1.brightness = 7 ∧
      (sample_room.async_turn_on (some 7) CmdOutcome.timeout).2.getLast?
        = some (Ev.publish 7 false)) :=
  turn_on_failure_marks_unavailable_keeps_brightness sample_channel sample_room 7
    CmdOutcome.timeout (by decide)

/-- C5: for every brightness `b` in `[0,255]` (and the default 255 when none is
supplied), `turn_on(b)` sets the adapter's local brightness to `b` and the
trace contains a publish of that state at a position strictly before the bridge
command round trip, for every outcome — the optimistic update precedes
confirmation even in executions where the command later fails. -/
theorem turn_on_optimistic_update_precedes_command
    (c : RakoChannelLight) (r : RakoRoomLight) (b : Nat) (o : CmdOutcome)
    (hb : b ≤ 255) :
    ((c.async_turn_on (some b) o).1.brightness = b ∧
      ∃ i j : Nat, i < j ∧
        (c.async_turn_on (some b) o).2[i]? = some (Ev.publish b c.available) ∧
        ∃ k, (c.async_turn_on (some b) o).2[j]? = some (Ev.cmd k o)) ∧
    ((r.async_turn_on (some b) o).1.brightness = b ∧
      ∃ i j : Nat, i < j ∧
        (r.async_turn_on (some b) o).2[i]? = some (Ev.publish b r.available) ∧
        ∃ k, (r.async_turn_on (some b) o).2[j]? = some (Ev.cmd k o)) ∧
    ((c.async_turn_on none o).1.brightness = 255 ∧
      (r.async_turn_on none o).1.brightness = 255) := by
  cases o with
  | success =>
      exact ⟨⟨rfl, 1, 2, by omega, rfl, _, rfl⟩, ⟨rfl, 0, 1, by omega, rfl, _, rfl⟩, rfl, rfl⟩
  | bridgeError =>
      refine ⟨⟨rfl, 1, 2, by omega, ?_,
          BridgeCmd.set_channel_brightness c.light.room_id c.light.channel_id b, ?_⟩,
        ⟨rfl, 0, 1, by omega, ?_,
          BridgeCmd.set_room_scene r.light.room_id (convert_to_scene b), ?_⟩, rfl, rfl⟩ <;>
        simp [RakoChannelLight.async_turn_on, RakoRoomLight.async_turn_on]
  | timeout =>
      refine ⟨⟨rfl, 1, 2, by omega, ?_,
          BridgeCmd.set_channel_brightness c.light.room_id c.light.channel_id b, ?_⟩,
        ⟨rfl, 0, 1, by omega, ?_,
          BridgeCmd.set_room_scene r.light.room_id (convert_to_scene b), ?_⟩, rfl, rfl⟩ <;>
        simp [RakoChannelLight.async_turn_on, RakoRoomLight.async_turn_on]

/-- Witness for C5: brightness 200 on the sample channel and room lights, with
a command that later fails with a bridge error. -/
theorem turn_on_optimistic_update_precedes_command_witness :
    ((sample_channel.async_turn_on (some 200) CmdOutcome.bridgeError).1.brightness = 200 ∧
      ∃ i j : Nat, i < j ∧
        (sample_channel.async_turn_on (some 200) CmdOutcome.bridgeError).2[i]?
          = some (Ev.publish 200 sample_channel.available) ∧
        ∃ k, (sample_channel.async_turn_on (some 200) CmdOutcome.bridgeError).2[j]?
          = some (Ev.cmd k CmdOutcome.bridgeError)) ∧
    ((sample_room.async_turn_on (some 200) CmdOutcome.bridgeError).1.brightness = 200 ∧
      ∃ i j : Nat, i < j ∧
        (sample_room.async_turn_on (some 200) CmdOutcome.bridgeError).2[i]?
          = some (Ev.publish 200 sample_room.available) ∧
        ∃ k, (sample_room.async_turn_on (some 200) CmdOutcome.bridgeError).2[j]?
          = some (Ev.cmd k CmdOutcome.bridgeError)) ∧
    ((sample_channel.async_turn_on none CmdOutcome.bridgeError).1.brightness = 255 ∧
      (sample_room.async_turn_on none CmdOutcome.bridgeError).1.brightness = 255) :=
  turn_on_optimistic_update_precedes_command sample_channel sample_room 200
    CmdOutcome.bridgeError (by decide)

/-- C7: in any reachable adapter state, a command whose bridge round trip
succeeds sets the availability flag to true — in particular an adapter made
unavailable by a timeout is restored by the next successful command on the same
adapter value, with no reconstruction. -/
theorem successful_command_restores_availability
    (c : RakoChannelLight) (r : RakoRoomLight) (s : RakoScene)
    (b b2 : Option Nat) :
    ((c.async_turn_on b CmdOutcome.success).1.available = true) ∧
    ((r.async_turn_on b CmdOutcome.success).1.available = true) ∧
    ((s.async_activate CmdOutcome.success).1.available = true) ∧
    (((c.async_turn_on b CmdOutcome.timeout).1.async_turn_on b2
        CmdOutcome.success).1.available = true) ∧
    (((r.async_turn_on b CmdOutcome.timeout).1.async_turn_on b2
        CmdOutcome.success).1.available = true) ∧
    (((s.async_activate CmdOutcome.timeout).1.async_activate
        CmdOutcome.success).1.available = true) :=
  ⟨rfl, rfl, rfl, rfl, rfl, rfl⟩

/-- A channel-light adapter already in the unavailable state. -/
def c4_unavailable_channel : RakoChannelLight :=
  { bridge := sample_bridge, light := sample_channel_desc, brightness := 5, available := false }

/-- C4 counterexample: a channel light that is already unavailable and whose
command fails again DOES record a log-worthy error event
(`RakoChannelLight.async_turn_on` logs `Error updating ...` unconditionally on
every failure, before the availability check), refuting "a command that fails
while the adapter is already unavailable records no log event". -/
theorem failed_command_while_unavailable_still_logs :
    (c4_unavailable_channel.async_turn_on (some 10) CmdOutcome.bridgeError).2.any
      Ev.is_log_error = true := by decide

/-- C4 (amended): the transition-specific message is logged exactly on the
true→false availability transition for channel lights, room lights and scenes;
room lights record no error log at all when a command fails while already
unavailable; but channel lights and scenes additionally record a per-failure
error log on every failed command, even when already unavailable. -/
theorem transition_logging_policy
    (c : RakoChannelLight) (r : RakoRoomLight) (s : RakoScene)
    (b : Option Nat) (o : CmdOutcome) (h : o ≠ CmdOutcome.success) :
    ((Ev.log_error light_transition_msg ∈ (c.async_turn_on b o).2 ↔ c.available = true) ∧
      (c.async_turn_on b o).2.any Ev.is_log_error = true) ∧
    ((Ev.log_error light_transition_msg ∈ (r.async_turn_on b o).2 ↔ r.available = true) ∧
      (r.async_turn_on b o).2.any Ev.is_log_error = r.available) ∧
    ((Ev.log_error scene_transition_msg ∈ (s.async_activate o).2 ↔ s.available = true) ∧
      (s.async_activate o).2.any Ev.is_log_error = true) := by
  cases o with
  | success => exact absurd rfl h
  | bridgeError =>
      cases hc : c.available <;> cases hr : r.available <;> cases hs : s.available <;>
        simp [RakoChannelLight.async_turn_on, RakoRoomLight.async_turn_on,
          RakoScene.async_activate, Ev.is_log_error, hc, hr, hs,
          light_msgs_ne, scene_msgs_ne]
  | timeout =>
      cases hc : c.available <;> cases hr : r.available <;> cases hs : s.available <;>
        simp [RakoChannelLight.async_turn_on, RakoRoomLight.async_turn_on,
          RakoScene.async_activate, Ev.is_log_error, hc, hr, hs,
          light_msgs_ne, scene_msgs_ne]

/-- Witness for the amended C4: the sample (available) adapters with a failing
command. -/
theorem transition_logging_policy_witness :
    ((Ev.log_error light_transition_msg
        ∈ (sample_channel.async_turn_on (some 3) CmdOutcome.bridgeError).2
      ↔ sample_channel.available = true) ∧
      (sample_channel.async_turn_on (some 3) CmdOutcome.bridgeError).2.any
        Ev.is_log_error = true) ∧
    ((Ev.log_error light_transition_msg
        ∈ (sample_room.async_turn_on (some 3) CmdOutcome.bridgeError).2
      ↔ sample_room.available = true) ∧
      (sample_room.async_turn_on (some 3) CmdOutcome.bridgeError).2.any
        Ev.is_log_error = sample_room.available) ∧
    ((Ev.log_error scene_transition_msg
        ∈ (sample_scene.async_activate CmdOutcome.bridgeError).2
      ↔ sample_scene.available = true) ∧
      (sample_scene.async_activate CmdOutcome.bridgeError).2.any
        Ev.is_log_error = true) :=
  transition_logging_policy sample_channel sample_room sample_scene (some 3)
    CmdOutcome.bridgeError (by decide)

/-- C10: when a scene adapter's activate fails with a bridge error or timeout,
the resulting adapter is the input with only the availability flag set false —
room id, room title, scene number and scene metadata are unchanged — the
exception is swallowed (the function is total), and no state publish occurs
anywhere in the emitted trace. -/
theorem scene_activate_failure_frame
    (s : RakoScene) (o : CmdOutcome) (h : o ≠ CmdOutcome.success) :
    (s.async_activate o).1 = { s with available := false } ∧
    (s.async_activate o).2.any Ev.is_publish = false ∧
    (s.async_activate o).1.room_id = s.room_id ∧
    (s.async_activate o).1.room_title = s.room_title ∧
    (s.async_activate o).1.scene_number = s.scene_number ∧
    (s.async_activate o).1.scene_info = s.scene_info := by
  cases o with
  | success => exact absurd rfl h
  | bridgeError =>
      cases hs : s.available <;> simp [RakoScene.async_activate, Ev.is_publish, hs]
  | timeout =>
      cases hs : s.available <;> simp [RakoScene.async_activate, Ev.is_publish, hs]

/-- Witness for C10: the sample scene with a timed-out activation. -/
theorem scene_activate_failure_frame_witness :
    (sample_scene.async_activate CmdOutcome.timeout).1
        = { sample_scene with available := false } ∧
    (sample_scene.async_activate CmdOutcome.timeout).2.any Ev.is_publish = false ∧
    (sample_scene.async_activate CmdOutcome.timeout).1.room_id = sample_scene.room_id ∧
    (sample_scene.async_activate CmdOutcome.timeout).1.room_title
        = sample_scene.room_title ∧
    (sample_scene.async_activate CmdOutcome.timeout).1.scene_number
        = sample_scene.scene_number ∧
    (sample_scene.async_activate CmdOutcome.timeout).1.scene_info
        = sample_scene.scene_info :=
  scene_activate_failure_frame sample_scene CmdOutcome.timeout (by decide)

/-- C6: at construction, a channel light's brightness is the level-cache entry
for (its room-channel, the scene cache's active scene for its room), 0 when
that entry is absent; a room light's brightness is the fixed scene→brightness
conversion of its room's cached active scene, and 0 (off) when the scene cache
has no entry for its room. -/
theorem initial_brightness_from_caches
    (bridge : RakoBridge) (c : ChannelLight) (r : RoomLight) :
    ((RakoChannelLight.mk_entity bridge c).brightness
        = bridge.level_cache.get_channel_level c.room_channel
            (bridge.scene_cache.get c.room_id 0)) ∧
    (bridge.level_cache.find? (fun e =>
          e.room_channel == c.room_channel
            && e.scene == bridge.scene_cache.get c.room_id 0) = none →
        (RakoChannelLight.mk_entity bridge c).brightness = 0) ∧
    ((RakoRoomLight.mk_entity bridge r).brightness
        = convert_to_brightness (bridge.scene_cache.get r.room_id 0)) ∧
    (bridge.scene_cache.lookup r.room_id = none →
        (RakoRoomLight.mk_entity bridge r).brightness = 0) := by
  refine ⟨rfl, ?_, rfl, ?_⟩
  · intro hnone
    simp [RakoChannelLight.mk_entity, RakoChannelLight.init_get_brightness_from_cache,
      LevelCache.get_channel_level, hnone]
  · intro hnone
    simp [RakoRoomLight.mk_entity, RakoRoomLight.init_get_brightness_from_cache,
      SceneCache.get, hnone, convert_to_brightness]

/-- Witness for C6: with empty caches, both lookups miss and both adapters
initialize to brightness 0; in particular a room light in room 7 with no scene
cache entry initializes off. -/
theorem initial_brightness_from_caches_witness :
    (RakoChannelLight.mk_entity empty_bridge sample_channel_desc).brightness = 0 ∧
    (RakoRoomLight.mk_entity empty_bridge sample_room_desc).brightness = 0 :=
  ⟨(initial_brightness_from_caches empty_bridge sample_channel_desc
      sample_room_desc).2.1 (by decide),
   (initial_brightness_from_caches empty_bridge sample_channel_desc
      sample_room_desc).2.2.2 (by decide)⟩

/-- A room-light descriptor in room 5, for the unique-id collision. -/
def c2_room_desc : RoomLight := { room_id := 5, room_title := "Kitchen" }

/-- A channel-light descriptor in room 5 whose channel id 2 equals a scene
number. -/
def c2_channel_desc : ChannelLight :=
  { room_id := 5, channel_id := 2, room_title := "Kitchen", channel_name := "Island" }

/-- C2 counterexample: a scene adapter produced by scene setup for room 5 has
the SAME unique id as the channel-light adapter of room 5, channel 2 — two
distinct entities of the same bridge with equal unique identifiers, refuting
"no two distinct entities of the same bridge have equal unique identifiers ...
distinct ... from every channel light's unique id". -/
theorem scene_channel_unique_id_collision :
    ∃ s ∈ scenes_from_light sample_bridge (DiscoveredLight.roomLight c2_room_desc),
      s.unique_id
        = (RakoChannelLight.mk_entity sample_bridge c2_channel_desc).unique_id := by
  decide

/-- C2 (amended): every light and scene entity's unique id is the deterministic
`create_unique_id` of (bridge MAC, room id, channel-or-scene id); for every
discovered room the 4 scene adapters (numbers 1–4) have unique ids distinct
from each other and from the room light's own unique id (whose id component is
the whole-room channel 0) — but NOT from every channel light's unique id: a
channel light of the same room whose channel id is a scene number 1–4 shares
its id with that scene adapter. -/
theorem unique_id_determinism_and_scene_distinctness
    (bridge : RakoBridge) (r : RoomLight) (c : ChannelLight) :
    ((RakoChannelLight.mk_entity bridge c).unique_id
        = create_unique_id bridge.mac c.room_id c.channel_id) ∧
    ((RakoRoomLight.mk_entity bridge r).unique_id
        = create_unique_id bridge.mac r.room_id 0) ∧
    (∀ s ∈ scenes_from_light bridge (DiscoveredLight.roomLight r),
        s.unique_id = create_unique_id bridge.mac r.room_id s.scene_number) ∧
    (((scenes_from_light bridge (DiscoveredLight.roomLight r)).map
        RakoScene.unique_id).Pairwise (fun a b => a ≠ b)) ∧
    (∀ s ∈ scenes_from_light bridge (DiscoveredLight.roomLight r),
        s.unique_id ≠ (RakoRoomLight.mk_entity bridge r).unique_id) := by
  refine ⟨rfl, rfl, ?_, ?_, ?_⟩
  · intro s hs
    simp [scenes_from_light, RAKO_SCENES] at hs
    rcases hs with h1 | h1 | h1 | h1 <;> subst h1 <;> rfl
  · have hmap : (scenes_from_light bridge (DiscoveredLight.roomLight r)).map
        RakoScene.unique_id
        = [create_unique_id bridge.mac r.room_id 1, create_unique_id bridge.mac r.room_id 2,
           create_unique_id bridge.mac r.room_id 3, create_unique_id bridge.mac r.room_id 4] :=
      rfl
    rw [hmap]
    refine List.Pairwise.cons ?_ (List.Pairwise.cons ?_ (List.Pairwise.cons ?_
      (List.Pairwise.cons ?_ List.Pairwise.nil)))
    · intro a ha
      fin_cases ha <;> exact create_unique_id_ne_of_repr_ne _ _ (by decide)
    · intro a ha
      fin_cases ha <;> exact create_unique_id_ne_of_repr_ne _ _ (by decide)
    · intro a ha
      fin_cases ha <;> exact create_unique_id_ne_of_repr_ne _ _ (by decide)
    · intro a ha
      exact absurd ha (List.not_mem_nil a)
  · intro s hs
    simp [scenes_from_light, RAKO_SCENES] at hs
    rcases hs with h1 | h1 | h1 | h1
    · subst h1
      exact @create_unique_id_ne_of_repr_ne bridge.mac r.room_id 1 0 (by decide)
    · subst h1
      exact @create_unique_id_ne_of_repr_ne bridge.mac r.room_id 2 0 (by decide)
    · subst h1
      exact @create_unique_id_ne_of_repr_ne bridge.mac r.room_id 3 0 (by decide)
    · subst h1
      exact @create_unique_id_ne_of_repr_ne bridge.mac r.room_id 4 0 (by decide)

/-- Witness for the amended C2: the first scene of room 5's setup output, with
the pairwise-distinctness conjunct evaluated at the sample bridge and room. -/
theorem unique_id_determinism_and_scene_distinctness_witness :
    ({ bridge := sample_bridge, room_id := 5, room_title := "Kitchen", scene_number := 1,
       scene_info := { name := "Scene 1", description := "100% brightness" },
       available := true } : RakoScene).unique_id
        = create_unique_id sample_bridge.mac 5 1 ∧
    (((scenes_from_light sample_bridge (DiscoveredLight.roomLight c2_room_desc)).map
        RakoScene.unique_id).Pairwise (fun a b => a ≠ b)) :=
  ⟨(unique_id_determinism_and_scene_distinctness sample_bridge c2_room_desc
      c2_channel_desc).2.2.1 _ (by decide),
   (unique_id_determinism_and_scene_distinctness sample_bridge c2_room_desc
      c2_channel_desc).2.2.2.1⟩

/-- C8: the scene setup entry point consumes the discovery sequence with no
retry — a failing consumption propagates its error immediately and nothing is
registered; a completed consumption yields, per room-light descriptor, exactly
the 4 scene adapters numbered 1–4 built from the `RAKO_SCENES` metadata table,
while channel-light descriptors contribute no scene adapters. -/
theorem scene_setup_no_retry_four_scenes_per_room
    (bridge : RakoBridge) (yielded : List DiscoveredLight) (e : String)
    (r : RoomLight) (c : ChannelLight) :
    (scene_async_setup_entry bridge { yielded := yielded, outcome := .ex e }
        = Except.error e) ∧
    (scene_async_setup_entry bridge { yielded := yielded, outcome := .ok }
        = Except.ok (yielded.flatMap (scenes_from_light bridge))) ∧
    ((scenes_from_light bridge (DiscoveredLight.roomLight r)).map
        (fun s => (s.scene_number, s.scene_info)) = RAKO_SCENES) ∧
    ((scenes_from_light bridge (DiscoveredLight.roomLight r)).length = 4) ∧
    (scenes_from_light bridge (DiscoveredLight.channelLight c) = []) :=
  ⟨rfl, rfl, rfl, rfl, rfl⟩

/-- C9: integration setup stores the bridge client under the bridge MAC
(`entry.data[CONF_MAC]`), while the light/scene platform setups look it up
under `entry.unique_id` (and unload deletes under `entry.unique_id`); starting
from an empty domain registry, the platform lookup retrieves the stored bridge
exactly when the entry's unique id equals the bridge MAC, and misses (the
dictionary's missing-key branch) otherwise. -/
theorem registry_stored_under_mac_looked_up_under_unique_id
    (entry : ConfigEntry) :
    (platform_setup_lookup (integration_setup_store empty_registry entry) entry
        = if entry.unique_id = entry.mac then some (rako_bridge_of entry) else none) ∧
    (integration_unload_delete (integration_setup_store empty_registry entry) entry
        entry.mac
        = if entry.mac = entry.unique_id then none else some (rako_bridge_of entry)) := by
  constructor
  · simp [platform_setup_lookup, integration_setup_store, empty_registry, rako_bridge_of]
  · by_cases hmac : entry.mac = entry.unique_id <;>
      simp [integration_unload_delete, integration_setup_store, empty_registry,
        rako_bridge_of, hmac]

/-- The bridge used for the light-setup retry evaluation. -/
def c1_bridge : RakoBridge := { mac := "AA:BB", level_cache := [], scene_cache := [] }

/-- A channel-light descriptor yielded on every discovery attempt. -/
def c1_channel_desc : ChannelLight :=
  { room_id := 3, channel_id := 1, room_title := "Hall", channel_name := "Main" }

/-- A room-light descriptor yielded only by the complete second attempt. -/
def c1_room_desc : RoomLight := { room_id := 4, room_title := "Porch" }

/-- A discovery schedule that yields one channel light and then raises on
attempt 1, and yields the channel light and a room light and completes on
attempt 2. -/
def c1_attempts : Nat → AttemptResult := fun i =>
  if i = 0 then
    { yielded := [DiscoveredLight.channelLight c1_channel_desc],
      outcome := .ex "transient parse failure" }
  else
    { yielded := [DiscoveredLight.channelLight c1_channel_desc,
                  DiscoveredLight.roomLight c1_room_desc],
      outcome := .ok }

/-- A discovery schedule on which every attempt raises before yielding. -/
def c1_attempts_all_fail : Nat → AttemptResult := fun i =>
  { yielded := [], outcome := .ex ("failure " ++ toString i) }

/-- C1: evaluation of `light.async_setup_entry` at the failing input. Because
`hass_lights` is initialized once BEFORE the retry loop, the adapters built
during the failed first pass are kept and the second pass appends to them: the
registered list is the concatenation of both passes (3 adapters, the channel
light duplicated), not the successful pass's 2 adapters alone. When all 3
attempts fail, the last attempt's error does propagate to the caller. -/
theorem light_setup_retry_accumulates_partial_results :
    (light_async_setup_entry c1_bridge c1_attempts
        = Except.ok (lights_from c1_bridge [DiscoveredLight.channelLight c1_channel_desc]
            ++ lights_from c1_bridge [DiscoveredLight.channelLight c1_channel_desc,
                 DiscoveredLight.roomLight c1_room_desc])) ∧
    ((light_async_setup_entry c1_bridge c1_attempts).map List.length = Except.ok 3) ∧
    ((lights_from c1_bridge [DiscoveredLight.channelLight c1_channel_desc,
        DiscoveredLight.roomLight c1_room_desc]).length = 2) ∧
    (light_async_setup_entry c1_bridge c1_attempts_all_fail = Except.error "failure 2") :=
  ⟨rfl, rfl, rfl, rfl⟩

end Rako
